import Mathlib

/-!
Verification development for the expense-tracker service: a shallow
embedding of the session store and validation (internal/storage), the
authentication middleware with rolling renewal (internal/handlers),
the expense form parsing and storage operations, and the statistics
aggregation engine (internal/handlers/statistics), together with
theorems settling the specified behavioural properties.

Conventions of the embedding:
- instants compared only by order (session expiry) are embedded as
  integers (Go nanosecond timestamps);
- calendar timestamps are embedded as a year/month/day/hour/minute/second
  record ordered lexicographically, matching both Go time ordering and
  SQLite DATETIME string comparison;
- currency amounts (float64 in the source) are embedded as rationals:
  every arithmetic step the handlers perform (sums, one guarded division,
  absolute value) is exact at these magnitudes, and the guard logic under
  scrutiny is arithmetic-representation independent;
- fallible storage calls are embedded as Except-valued oracles supplied
  as parameters, so theorems quantify over every storage behaviour.
-/

namespace ExpenseTracker

/-- Calendar timestamp at second precision, the view of a Go time.Time
value used by the storage layer and the statistics handlers. -/
structure DateTime where
  year : Int
  month : Int
  day : Int
  hour : Int
  minute : Int
  second : Int
deriving DecidableEq

/-- Lexicographic key of a timestamp: chronological order of Go time
values, which is also the order SQLite DATETIME comparison implements. -/
def DateTime.key (t : DateTime) : Lex (Int × Lex (Int × Lex (Int × Lex (Int × Lex (Int × Int))))) :=
  toLex (t.year, toLex (t.month, toLex (t.day, toLex (t.hour, toLex (t.minute, t.second)))))

/-- Boolean chronological comparison on timestamps. -/
def dtLe (a b : DateTime) : Bool := decide (a.key ≤ b.key)

theorem dtLe_total (a b : DateTime) : dtLe a b = true ∨ dtLe b a = true := by
  simp only [dtLe, decide_eq_true_eq]
  exact le_total _ _

theorem dtLe_trans {a b c : DateTime} (h1 : dtLe a b = true) (h2 : dtLe b c = true) :
    dtLe a c = true := by
  simp only [dtLe, decide_eq_true_eq] at h1 h2 ⊢
  exact le_trans h1 h2

/-- Row of the sessions table: token (primary key), user_id, expires_at,
last_activity. Instants are Go nanosecond timestamps. -/
structure SessionRow where
  token : String
  userId : Int
  expiresAt : Int
  lastActivity : Int
deriving DecidableEq

/-- Row of the users table. -/
structure UserRow where
  id : Int
  username : String
  passwordHash : String
  createdAt : Int
deriving DecidableEq

/-- State of the relational store visible to session validation. -/
structure StoreDB where
  sessions : List SessionRow
  users : List UserRow

/-- Result record of storage.ValidateSessionWithInfo. -/
structure SessionInfo where
  user : UserRow
  lastActivity : Int
  expiresAt : Int
deriving DecidableEq

/-- Embeds storage.ValidateSessionWithInfo: the SQL query selects the
sessions-users join row with s.token = token AND s.expires_at >
CURRENT_TIMESTAMP; row.Scan yields the single no-rows error value
(sql.ErrNoRows, embedded as Unit) whenever no row qualifies, so an
expired row and an absent row produce the identical failure. -/
def validateSessionWithInfo (db : StoreDB) (now : Int) (token : String) :
    Except Unit SessionInfo :=
  match db.sessions.find? (fun s => s.token == token && decide (now < s.expiresAt)) with
  | some s =>
    match db.users.find? (fun u => u.id == s.userId) with
    | some u => Except.ok { user := u, lastActivity := s.lastActivity, expiresAt := s.expiresAt }
    | none => Except.error ()
  | none => Except.error ()

/-- Embeds storage.ValidateSession: delegates to ValidateSessionWithInfo
and projects the user, propagating the error unchanged. -/
def validateSession (db : StoreDB) (now : Int) (token : String) : Except Unit UserRow :=
  match validateSessionWithInfo db now token with
  | Except.ok info => Except.ok info.user
  | Except.error e => Except.error e

/-- Claim C1: ValidateSession and ValidateSessionWithInfo succeed iff a
non-deleted session row exists for the token with expires_at strictly
greater than now (boundary exclusive, assuming referential integrity of
the user foreign key, which the schema enforces via ON DELETE CASCADE);
both expired and missing rows fail with the very same error value, so the
caller cannot distinguish the two cases. -/
theorem validateSession_valid_iff (db : StoreDB) (now : Int) (token : String)
    (hfk : ∀ s ∈ db.sessions, ∃ u ∈ db.users, u.id = s.userId) :
    ((validateSessionWithInfo db now token).isOk = true ↔
      ∃ s ∈ db.sessions, s.token = token ∧ now < s.expiresAt)
    ∧ ((validateSession db now token).isOk = (validateSessionWithInfo db now token).isOk)
    ∧ ((¬ ∃ s ∈ db.sessions, s.token = token ∧ now < s.expiresAt) →
        validateSessionWithInfo db now token = Except.error ()) := by
  refine ⟨?_, ?_, ?_⟩
  · unfold validateSessionWithInfo
    cases hfind : db.sessions.find? (fun s => s.token == token && decide (now < s.expiresAt)) with
    | none =>
      have hall := List.find?_eq_none.mp hfind
      simp only [Except.isOk, Except.toBool]
      constructor
      · intro h; simp at h
      · rintro ⟨s, hs, hts, hexp⟩
        exact absurd (by simp [hts, hexp]) (hall s hs)
    | some s =>
      have hmem := List.mem_of_find?_eq_some hfind
      have hpred := List.find?_some hfind
      simp only [Bool.and_eq_true, beq_iff_eq, decide_eq_true_eq] at hpred
      obtain ⟨u, hu, huid⟩ := hfk s hmem
      have husers : (db.users.find? (fun u => u.id == s.userId)).isSome = true :=
        List.find?_isSome.mpr ⟨u, hu, by simp [huid]⟩
      obtain ⟨u2, hufind⟩ := Option.isSome_iff_exists.mp husers
      dsimp only
      rw [hufind]
      simp only [Except.isOk, Except.toBool]
      exact ⟨fun _ => ⟨s, hmem, hpred.1, hpred.2⟩, fun _ => trivial⟩
  · unfold validateSession
    cases validateSessionWithInfo db now token <;> rfl
  · intro hnone
    unfold validateSessionWithInfo
    cases hfind : db.sessions.find? (fun s => s.token == token && decide (now < s.expiresAt)) with
    | none => rfl
    | some s =>
      have hmem := List.mem_of_find?_eq_some hfind
      have hpred := List.find?_some hfind
      simp only [Bool.and_eq_true, beq_iff_eq, decide_eq_true_eq] at hpred
      exact absurd ⟨s, hmem, hpred.1, hpred.2⟩ hnone

/-- Concrete store with one live session, one expired-at-boundary session
and one stale session, exercising validateSession_valid_iff. -/
def storeW : StoreDB :=
  { sessions := [
      { token := "live", userId := 1, expiresAt := 200, lastActivity := 90 },
      { token := "edge", userId := 1, expiresAt := 100, lastActivity := 50 },
      { token := "old", userId := 1, expiresAt := 40, lastActivity := 10 }],
    users := [{ id := 1, username := "alice", passwordHash := "h", createdAt := 0 }] }

/-- Witness for claim C1 at the concrete store with now = 100: the live
row validates, and a row whose expires_at equals now is rejected exactly
like a missing row. -/
theorem validateSession_valid_iff_witness :
    (((validateSessionWithInfo storeW 100 ("live")).isOk = true ↔
        ∃ s ∈ storeW.sessions, s.token = "live" ∧ 100 < s.expiresAt)
      ∧ ((validateSession storeW 100 ("live")).isOk =
          (validateSessionWithInfo storeW 100 ("live")).isOk)
      ∧ ((¬ ∃ s ∈ storeW.sessions, s.token = "live" ∧ 100 < s.expiresAt) →
          validateSessionWithInfo storeW 100 ("live") = Except.error ()))
    ∧ (((validateSessionWithInfo storeW 100 ("edge")).isOk = true ↔
        ∃ s ∈ storeW.sessions, s.token = "edge" ∧ 100 < s.expiresAt)
      ∧ ((validateSession storeW 100 ("edge")).isOk =
          (validateSessionWithInfo storeW 100 ("edge")).isOk)
      ∧ ((¬ ∃ s ∈ storeW.sessions, s.token = "edge" ∧ 100 < s.expiresAt) →
          validateSessionWithInfo storeW 100 ("edge") = Except.error ())) :=
  ⟨validateSession_valid_iff storeW 100 ("live") (by decide),
   validateSession_valid_iff storeW 100 ("edge") (by decide)⟩

/-- Session lifetime of 30 days, in Go time.Duration nanoseconds
(handlers.SessionDuration). -/
def sessionDuration : Int := 30 * 24 * 3600 * 1000000000

/-- Value of int(SessionDuration.Seconds()), the MaxAge the handlers put
on the session cookie. -/
def sessionDurationSeconds : Int := 2592000

/-- Fields of the session cookie the middleware may set. -/
structure Cookie where
  name : String
  value : String
  path : String
  maxAge : Int
  httpOnly : Bool
  secure : Bool
deriving DecidableEq

/-- Outcome of the authentication middleware for one request. -/
inductive AuthOutcome where
  /-- Redirect to /login; the flag records whether the session cookie was
  cleared first. -/
  | redirectLogin (clearedCookie : Bool)
  /-- Invoke the wrapped handler with this user attached to the request
  context, after optionally reissuing the session cookie. -/
  | proceed (ctxUser : UserRow) (reissuedCookie : Option Cookie)
deriving DecidableEq

/-- Outcome plus the log of RenewSession storage writes attempted, as
(token, newExpiresAt) pairs. -/
structure AuthResult where
  outcome : AuthOutcome
  renewCalls : List (String × Int)
deriving DecidableEq

/-- Embeds Handlers.AuthMiddleware: read the cookie, validate the session,
and apply the rolling-renewal policy. The store behaviour is supplied as
oracles: validate embeds db.ValidateSessionWithInfo at the request instant,
renewOk tells whether the db.RenewSession write succeeds. -/
def authMiddleware (validate : String → Except Unit SessionInfo)
    (renewOk : String → Int → Bool) (secureCookie : Bool) (now : Int)
    (cookie : Option String) : AuthResult :=
  match cookie with
  | none => { outcome := AuthOutcome.redirectLogin false, renewCalls := [] }
  | some tok =>
    if tok == "" then { outcome := AuthOutcome.redirectLogin false, renewCalls := [] }
    else
      match validate tok with
      | Except.error _ => { outcome := AuthOutcome.redirectLogin true, renewCalls := [] }
      | Except.ok info =>
        let timeUntilExpiry := info.expiresAt - now
        let halfSessionDuration := sessionDuration / 2
        if timeUntilExpiry < halfSessionDuration then
          let newExpiresAt := now + sessionDuration
          if renewOk tok newExpiresAt then
            { outcome := AuthOutcome.proceed info.user
                (some { name := "session", value := tok, path := "/",
                        maxAge := sessionDurationSeconds, httpOnly := true,
                        secure := secureCookie }),
              renewCalls := [(tok, newExpiresAt)] }
          else
            { outcome := AuthOutcome.proceed info.user none,
              renewCalls := [(tok, newExpiresAt)] }
        else
          { outcome := AuthOutcome.proceed info.user none, renewCalls := [] }

/-- Claim C2: on a request whose session validates, the middleware renews
iff expiresAt - now < sessionDuration / 2; when it renews it writes exactly
newExpiresAt = now + sessionDuration through RenewSession and, on success,
reissues the cookie with the same token and the session-duration max-age;
otherwise no renewal write occurs. -/
theorem authMiddleware_renewal_policy (validate : String → Except Unit SessionInfo)
    (renewOk : String → Int → Bool) (secureCookie : Bool) (now : Int)
    (tok : String) (info : SessionInfo)
    (htok : (tok == "") = false)
    (hval : validate tok = Except.ok info) :
    ((info.expiresAt - now < sessionDuration / 2) →
      (authMiddleware validate renewOk secureCookie now (some tok)).renewCalls =
        [(tok, now + sessionDuration)]
      ∧ (renewOk tok (now + sessionDuration) = true →
          (authMiddleware validate renewOk secureCookie now (some tok)).outcome =
            AuthOutcome.proceed info.user
              (some { name := "session", value := tok, path := "/",
                      maxAge := sessionDurationSeconds, httpOnly := true,
                      secure := secureCookie })))
    ∧ (¬ (info.expiresAt - now < sessionDuration / 2) →
        (authMiddleware validate renewOk secureCookie now (some tok)).renewCalls = []
        ∧ (authMiddleware validate renewOk secureCookie now (some tok)).outcome =
            AuthOutcome.proceed info.user none) := by
  unfold authMiddleware
  dsimp only
  rw [hval]
  simp only [htok, Bool.false_eq_true, if_false]
  constructor
  · intro hcond
    rw [if_pos hcond]
    refine ⟨?_, ?_⟩
    · cases hr : renewOk tok (now + sessionDuration) <;> simp [hr]
    · intro hr
      simp [hr]
  · intro hcond
    rw [if_neg hcond]
    exact ⟨rfl, rfl⟩

/-- Concrete validate oracle for the middleware witnesses: one session for
token t1, expiring at instant 170. -/
def validateW : String → Except Unit SessionInfo := fun tok =>
  if tok == "t1" then
    Except.ok { user := { id := 1, username := "alice", passwordHash := "h", createdAt := 0 },
                lastActivity := 0, expiresAt := 170 * 86400000000000 }
  else Except.error ()

/-- Witness for claim C2 with the clock at day 156 (14 days before the day-170 expiry,
under the 15-day half-life): the middleware performs exactly one renewal
write and reissues the cookie. -/
theorem authMiddleware_renewal_policy_witness :
    ((170 * 86400000000000 - 156 * 86400000000000 < sessionDuration / 2) →
      (authMiddleware validateW (fun _ _ => true) false (156 * 86400000000000)
          (some ("t1"))).renewCalls =
        [("t1", 156 * 86400000000000 + sessionDuration)]
      ∧ ((fun (_ : String) (_ : Int) => true) ("t1") (156 * 86400000000000 + sessionDuration) = true →
          (authMiddleware validateW (fun _ _ => true) false (156 * 86400000000000)
              (some ("t1"))).outcome =
            AuthOutcome.proceed
              { id := 1, username := "alice", passwordHash := "h", createdAt := 0 }
              (some { name := "session", value := "t1", path := "/",
                      maxAge := sessionDurationSeconds, httpOnly := true,
                      secure := false })))
    ∧ (¬ (170 * 86400000000000 - 156 * 86400000000000 < sessionDuration / 2) →
        (authMiddleware validateW (fun _ _ => true) false (156 * 86400000000000)
            (some ("t1"))).renewCalls = []
        ∧ (authMiddleware validateW (fun _ _ => true) false (156 * 86400000000000)
            (some ("t1"))).outcome =
          AuthOutcome.proceed
            { id := 1, username := "alice", passwordHash := "h", createdAt := 0 } none) :=
  authMiddleware_renewal_policy validateW (fun _ _ => true) false (156 * 86400000000000)
    ("t1")
    { user := { id := 1, username := "alice", passwordHash := "h", createdAt := 0 },
      lastActivity := 0, expiresAt := 170 * 86400000000000 }
    (by decide) rfl

/-- Claim C9: every RenewSession write the middleware performs on a
validated session pushes expires_at strictly forward: the new expiry
now + sessionDuration always exceeds the old one, because renewal only
fires when less than half the (positive) session duration remains. -/
theorem renewal_never_shortens (validate : String → Except Unit SessionInfo)
    (renewOk : String → Int → Bool) (secureCookie : Bool) (now : Int)
    (tok : String) (info : SessionInfo)
    (hval : validate tok = Except.ok info) :
    ∀ c ∈ (authMiddleware validate renewOk secureCookie now (some tok)).renewCalls,
      info.expiresAt < c.2 := by
  intro c hc
  unfold authMiddleware at hc
  dsimp only at hc
  cases htok : (tok == "") with
  | true => simp only [htok, if_true] at hc; simp at hc
  | false =>
    rw [hval] at hc
    simp only [htok, Bool.false_eq_true, if_false] at hc
    by_cases hcond : info.expiresAt - now < sessionDuration / 2
    · rw [if_pos hcond] at hc
      have hc2 : c = (tok, now + sessionDuration) := by
        by_cases hr : renewOk tok (now + sessionDuration) = true
        · rw [if_pos hr] at hc
          simpa using hc
        · rw [if_neg hr] at hc
          simpa using hc
      rw [hc2]
      show info.expiresAt < now + sessionDuration
      have hsd : sessionDuration = 2592000000000000 := by norm_num [sessionDuration]
      rw [hsd] at hcond ⊢
      omega
    · rw [if_neg hcond] at hc
      simp at hc

/-- Witness for claim C9 at the day-156 clock: the single renewal write
the middleware performs there carries an expiry later than the old
day-170 expiry. -/
theorem renewal_never_shortens_witness :
    ({ user := { id := 1, username := "alice", passwordHash := "h", createdAt := 0 },
       lastActivity := 0, expiresAt := 170 * 86400000000000 } : SessionInfo).expiresAt <
      (("t1", 156 * 86400000000000 + sessionDuration) : String × Int).2 :=
  renewal_never_shortens validateW (fun _ _ => true) false (156 * 86400000000000) ("t1")
    { user := { id := 1, username := "alice", passwordHash := "h", createdAt := 0 },
      lastActivity := 0, expiresAt := 170 * 86400000000000 }
    rfl
    ("t1", 156 * 86400000000000 + sessionDuration)
    (by decide)

/-- Claim C10: when the session validated but the RenewSession write fails,
the request still proceeds: the authenticated user is attached to the
request context, no cookie is reissued, and no failure is surfaced (the
outcome is neither a redirect nor an error). -/
theorem renewal_failure_nonfatal (validate : String → Except Unit SessionInfo)
    (renewOk : String → Int → Bool) (secureCookie : Bool) (now : Int)
    (tok : String) (info : SessionInfo)
    (htok : (tok == "") = false)
    (hval : validate tok = Except.ok info)
    (hcond : info.expiresAt - now < sessionDuration / 2)
    (hfail : renewOk tok (now + sessionDuration) = false) :
    authMiddleware validate renewOk secureCookie now (some tok) =
      { outcome := AuthOutcome.proceed info.user none,
        renewCalls := [(tok, now + sessionDuration)] } := by
  unfold authMiddleware
  dsimp only
  rw [hval]
  simp only [htok, Bool.false_eq_true, if_false]
  rw [if_pos hcond, hfail]
  rfl

/-- Witness for claim C10 with a renewal oracle that always fails: the
request proceeds with the validated user and no reissued cookie. -/
theorem renewal_failure_nonfatal_witness :
    authMiddleware validateW (fun _ _ => false) false (156 * 86400000000000) (some ("t1")) =
      { outcome := AuthOutcome.proceed
          { id := 1, username := "alice", passwordHash := "h", createdAt := 0 } none,
        renewCalls := [("t1", 156 * 86400000000000 + sessionDuration)] } :=
  renewal_failure_nonfatal validateW (fun _ _ => false) false (156 * 86400000000000) ("t1")
    { user := { id := 1, username := "alice", passwordHash := "h", createdAt := 0 },
      lastActivity := 0, expiresAt := 170 * 86400000000000 }
    (by decide) rfl (by decide) rfl

/-- Form data of a request: field names with submitted values. -/
def FormData := List (String × String)

/-- Embeds Request.FormValue: the first value posted for the key, or the
empty string when the field is absent. -/
def formValue (form : FormData) (key : String) : String :=
  match form.find? (fun kv => kv.1 == key) with
  | some kv => kv.2
  | none => ""

/-- Go zero value of time.Time: January 1 of year 1, 00:00:00. -/
def goZeroTime : DateTime :=
  { year := 1, month := 1, day := 1, hour := 0, minute := 0, second := 0 }

/-- Embeds handlers.parseForm. The standard-library parsers are supplied
as oracles: parseFloat embeds strconv.ParseFloat (whose error the code
discards, keeping the zero value) and parseDateTime embeds time.Parse with
layout 2006-01-02T15:04. The named return value category is never
assigned anywhere in the function body, so the success value always
carries the empty string in the category position. -/
def parseForm (parseFloat : String → Option Rat)
    (parseDateTime : String → Option DateTime) (form : Option FormData) :
    Except String (Rat × String × String × DateTime) :=
  match form with
  | none => Except.error "form parse error"
  | some f =>
    let amount := (parseFloat (formValue f ("amount"))).getD 0
    let desc0 := formValue f ("description")
    let desc := if desc0 == "" then "Expense" else desc0
    let dateStr := formValue f ("date")
    if dateStr == "" then Except.error "date is required"
    else
      match parseDateTime dateStr with
      | none => Except.error "date parse error"
      | some date => Except.ok (amount, desc, "", date)

/-- Row of the expenses table. -/
structure ExpenseRow where
  id : Int
  amount : Rat
  description : String
  category : String
  date : DateTime
deriving DecidableEq

/-- Embeds storage.CreateExpense: a zero date is replaced by the current
time; returns the row the INSERT stores (newId stands for the
auto-increment key the database assigns). -/
def createExpense (amount : Rat) (description category : String)
    (date : DateTime) (now : DateTime) (newId : Int) : ExpenseRow :=
  let d := if date == goZeroTime then now else date
  { id := newId, amount := amount, description := description,
    category := category, date := d }

/-- Embeds Handlers.CreateExpense on the storage write path: parse the
form, then insert; none models the 400 response on a parse failure. -/
def handleCreateExpense (parseFloat : String → Option Rat)
    (parseDateTime : String → Option DateTime) (form : Option FormData)
    (now : DateTime) (newId : Int) : Option ExpenseRow :=
  match parseForm parseFloat parseDateTime form with
  | Except.error _ => none
  | Except.ok (amount, desc, cat, date) =>
    some (createExpense amount desc cat date now newId)

/-- Embeds Handlers.UpdateExpense on the storage write path: parse the
form and overwrite the full record under the path id (storage performs
no zero-date substitution on update). -/
def handleUpdateExpense (parseFloat : String → Option Rat)
    (parseDateTime : String → Option DateTime) (id : Int)
    (form : Option FormData) : Option ExpenseRow :=
  match parseForm parseFloat parseDateTime form with
  | Except.error _ => none
  | Except.ok (amount, desc, cat, date) =>
    some { id := id, amount := amount, description := desc,
           category := cat, date := date }

/-- Claim C3: every form submission that passes validation yields the
empty string in the category position, and consequently every expense
record written by the create and update handlers carries category = "",
whatever category value the form submitted. -/
theorem parseForm_category_always_empty (parseFloat : String → Option Rat)
    (parseDateTime : String → Option DateTime) (form : Option FormData)
    (a : Rat) (d c : String) (dt : DateTime)
    (h : parseForm parseFloat parseDateTime form = Except.ok (a, d, c, dt)) :
    c = ""
    ∧ (∀ now newId e, handleCreateExpense parseFloat parseDateTime form now newId = some e →
        e.category = "")
    ∧ (∀ id e, handleUpdateExpense parseFloat parseDateTime id form = some e →
        e.category = "") := by
  have hc : c = "" := by
    unfold parseForm at h
    cases form with
    | none => simp at h
    | some f =>
      dsimp only at h
      by_cases hd : (formValue f ("date") == "") = true
      · rw [if_pos hd] at h; simp at h
      · rw [if_neg hd] at h
        cases hp : parseDateTime (formValue f ("date")) with
        | none => rw [hp] at h; simp at h
        | some date =>
          rw [hp] at h
          have := (Except.ok.injEq _ _).mp h
          exact (congrArg (fun q => q.2.2.1) this).symm
  refine ⟨hc, ?_, ?_⟩
  · intro now newId e he
    unfold handleCreateExpense at he
    rw [h] at he
    simp only [Option.some.injEq] at he
    rw [← he]
    simp [createExpense, hc]
  · intro id e he
    unfold handleUpdateExpense at he
    rw [h] at he
    simp only [Option.some.injEq] at he
    rw [← he]
    simp [hc]

/-- Concrete parser oracles and form for the C3 witness. -/
def parseFloatW : String → Option Rat := fun s => if s == "5" then some 5 else none

/-- Concrete date parser for the C3 witness. -/
def parseDateTimeW : String → Option DateTime := fun s =>
  if s == "2024-03-01T10:00" then
    some { year := 2024, month := 3, day := 1, hour := 10, minute := 0, second := 0 }
  else none

/-- Concrete submitted form for the C3 witness: note it submits a
category, which the handlers discard. -/
def formW : Option FormData :=
  some [("amount", "5"), ("description", "groceries"), ("category", "food"),
        ("date", "2024-03-01T10:00")]

/-- Witness for claim C3: the concrete form parses successfully and both
write paths store category = "". -/
theorem parseForm_category_always_empty_witness :
    ("" : String) = ""
    ∧ (∀ now newId e, handleCreateExpense parseFloatW parseDateTimeW formW now newId = some e →
        e.category = "")
    ∧ (∀ id e, handleUpdateExpense parseFloatW parseDateTimeW id formW = some e →
        e.category = "") :=
  parseForm_category_always_empty parseFloatW parseDateTimeW formW
    5 ("groceries") ("")
    { year := 2024, month := 3, day := 1, hour := 10, minute := 0, second := 0 }
    rfl

/-- Embeds the start-of-month computation in storage.ListExpenses:
time.Date(now.Year(), now.Month(), 1, 0, 0, 0, 0, now.Location()). -/
def startOfMonth (now : DateTime) : DateTime :=
  { year := now.year, month := now.month, day := 1, hour := 0, minute := 0, second := 0 }

/-- Descending chronological order, the ORDER BY date DESC of the query. -/
def dateDesc (a b : ExpenseRow) : Prop := dtLe b.date a.date = true

instance : DecidableRel dateDesc := fun a b =>
  inferInstanceAs (Decidable (dtLe b.date a.date = true))

instance : IsTotal ExpenseRow dateDesc :=
  ⟨fun a b => dtLe_total b.date a.date⟩

instance : IsTrans ExpenseRow dateDesc :=
  ⟨fun _ _ _ h1 h2 => dtLe_trans h2 h1⟩

/-- Embeds storage.ListExpenses: SELECT the expenses WHERE
date >= startOfMonth, ORDER BY date DESC. The row order of the SQL result
is any date-descending permutation; insertion sort realizes one. -/
def listExpenses (rows : List ExpenseRow) (now : DateTime) : List ExpenseRow :=
  List.insertionSort dateDesc
    (rows.filter (fun e => dtLe (startOfMonth now) e.date))

/-- Fixed clock for the C5 boundary check: 2024-03-15T12:00:00. -/
def clockMar15 : DateTime :=
  { year := 2024, month := 3, day := 15, hour := 12, minute := 0, second := 0 }

/-- Expense dated the last instant of February 2024. -/
def expFeb29 : ExpenseRow :=
  { id := 1, amount := 10, description := "late feb", category := "food",
    date := { year := 2024, month := 2, day := 29, hour := 23, minute := 59, second := 59 } }

/-- Expense dated the first instant of March 2024. -/
def expMar1 : ExpenseRow :=
  { id := 2, amount := 5, description := "first of march", category := "food",
    date := { year := 2024, month := 3, day := 1, hour := 0, minute := 0, second := 0 } }

/-- Claim C5: ListExpenses returns exactly the expenses dated at or after
the start of the current calendar month of the server clock, sorted by
date descending; with the clock fixed at 2024-03-15T12:00:00 an expense
dated 2024-02-29T23:59:59 is excluded while one dated 2024-03-01T00:00:00
is included. -/
theorem listExpenses_month_boundary (rows : List ExpenseRow) (now : DateTime) :
    (∀ e, e ∈ listExpenses rows now ↔
      e ∈ rows ∧ dtLe (startOfMonth now) e.date = true)
    ∧ List.Sorted dateDesc (listExpenses rows now)
    ∧ listExpenses [expFeb29, expMar1] clockMar15 = [expMar1] := by
  refine ⟨?_, ?_, ?_⟩
  · intro e
    unfold listExpenses
    rw [(List.perm_insertionSort dateDesc _).mem_iff]
    exact List.mem_filter
  · exact List.sorted_insertionSort dateDesc _
  · decide

/-- Leap year of the proleptic Gregorian calendar (Go time.isLeap); the
divisibility tests agree with the truncated remainder Go computes. -/
def isLeapYear (y : Int) : Bool := y % 4 == 0 && (y % 100 != 0 || y % 400 == 0)

/-- Year/month normalization performed by Go time.Date for out-of-range
month numbers (floor division into years). -/
def normYM (y m : Int) : Int × Int := (y + (m - 1).fdiv 12, (m - 1).emod 12 + 1)

/-- Embeds daysInMonth := time.Date(year, month+1, 0, ...).Day(): the
number of days of the (normalized) month. -/
def daysInMonth (y m : Int) : Nat :=
  let ym := normYM y m
  if ym.2 == 2 then (if isLeapYear ym.1 then 29 else 28)
  else if ym.2 == 4 || ym.2 == 6 || ym.2 == 9 || ym.2 == 11 then 30
  else 31

/-- Full month names of time.Month.String(). -/
def monthNamesFull : List String :=
  ["January", "February", "March", "April", "May", "June", "July",
   "August", "September", "October", "November", "December"]

/-- Abbreviated month names, used by the year chart labels and by the
Jan 02 date layout. -/
def monthAbbrevs : List String :=
  ["Jan", "Feb", "Mar", "Apr", "May", "Jun", "Jul", "Aug", "Sep", "Oct", "Nov", "Dec"]

/-- Embeds time.Month.String(), including its out-of-range rendering. -/
def monthNameOf (m : Int) : String :=
  if 1 ≤ m ∧ m ≤ 12 then (monthNamesFull.getD ((m - 1).toNat) (""))
  else "%!Month(" ++ toString m ++ ")"

/-- Two-digit zero padding of Go layout fields. -/
def pad2 (n : Int) : String := if n < 10 then "0" ++ toString n else toString n

/-- Four-digit zero padding of the Go year field. -/
def pad4 (n : Int) : String :=
  if n < 10 then "000" ++ toString n
  else if n < 100 then "00" ++ toString n
  else if n < 1000 then "0" ++ toString n
  else toString n

/-- Go layout string Jan 02, 15:04. -/
def formatShort (t : DateTime) : String :=
  (monthAbbrevs.getD ((t.month - 1).toNat) ("")) ++ " " ++ pad2 t.day ++ ", " ++
    pad2 t.hour ++ ":" ++ pad2 t.minute

/-- Go layout string 2006-01-02T15:04:05. -/
def formatISO (t : DateTime) : String :=
  pad4 t.year ++ "-" ++ pad2 t.month ++ "-" ++ pad2 t.day ++ "T" ++
    pad2 t.hour ++ ":" ++ pad2 t.minute ++ ":" ++ pad2 t.second

/-- Whether pat occurs contiguously in the character list (the kernel of
strings.Contains). -/
def hasSub (pat : List Char) : List Char → Bool
  | [] => pat.isEmpty
  | c :: rest => pat.isPrefixOf (c :: rest) || hasSub pat rest

/-- Embeds strings.Contains(description, the income marker). -/
def containsIncome (s : String) : Bool := hasSub (("[Income]").toList) s.toList

/-- Visual style of a category. -/
structure CategoryStyle where
  icon : String
  color : String
deriving DecidableEq

/-- One entry of the fixed category registry. -/
structure CategoryDef where
  id : String
  name : String
  icon : String
  color : String
deriving DecidableEq

/-- The fixed category registry of handlers.go. -/
def categories : List CategoryDef :=
  [{ id := "food", name := "Food", icon := "🍽️", color := "#60a5fa" },
   { id := "transport", name := "Transport", icon := "🚌", color := "#a78bfa" },
   { id := "entertainment", name := "Entertainment", icon := "🎮", color := "#f472b6" },
   { id := "utilities", name := "Utilities", icon := "💡", color := "#fbbf24" },
   { id := "housing", name := "Housing", icon := "🏠", color := "#818cf8" },
   { id := "gifts", name := "Gifts", icon := "🎁", color := "#fb7185" },
   { id := "other", name := "Other", icon := "📦", color := "#94a3b8" }]

/-- Embeds handlers.getCategoryStyle: first registry entry matching the
lower-cased category, with the boxed fallback. -/
def getCategoryStyle (category : String) : CategoryStyle :=
  match categories.find? (fun c => c.id == category.toLower) with
  | some c => { icon := c.icon, color := c.color }
  | none => { icon := "📦", color := "#94a3b8" }

/-- Row of GetCategoryTotalsByMonth / GetCategoryTotalsByYear: SUM(amount)
and COUNT per category. -/
structure CategoryTotal where
  category : String
  total : Rat
  count : Nat
deriving DecidableEq

/-- Row of GetDailyTotalsForMonth. -/
structure DailyTotal where
  day : Int
  total : Rat
deriving DecidableEq

/-- Row of GetMonthlyTotalsForYear. -/
structure MonthlyTotal where
  month : Int
  total : Rat
deriving DecidableEq

/-- Category line of the statistics view. -/
structure StatsCategoryItem where
  category : String
  total : Rat
  count : Nat
  percentage : Rat
  categoryStyle : CategoryStyle
deriving DecidableEq

/-- Data point of the chart series. -/
structure ChartPoint where
  label : String
  value : Rat
deriving DecidableEq

/-- Expense line of the statistics view. -/
structure ExpenseItem where
  id : Int
  amount : Rat
  description : String
  category : String
  time : String
  dateTime : String
  categoryStyle : CategoryStyle
  isIncome : Bool
deriving DecidableEq

/-- View model of the statistics page. -/
structure StatsViewModel where
  viewMode : String
  year : Int
  month : Int
  monthName : String
  total : Rat
  percentageChange : Rat
  isIncrease : Bool
  hasChange : Bool
  averageSpending : Rat
  averageLabel : String
  categories : List StatsCategoryItem
  expenses : List ExpenseItem
  chartData : List ChartPoint
  maxChartValue : Rat
  prevYear : Int
  prevMonth : Int
  nextYear : Int
  nextMonth : Int
  isCurrentPeriod : Bool
deriving DecidableEq

/-- Go zero value StatsViewModel\x7b\x7d the handlers return when an
aggregation read aborts. -/
def emptyStatsViewModel : StatsViewModel :=
  { viewMode := "", year := 0, month := 0, monthName := "", total := 0,
    percentageChange := 0, isIncrease := false, hasChange := false,
    averageSpending := 0, averageLabel := "", categories := [],
    expenses := [], chartData := [], maxChartValue := 0, prevYear := 0,
    prevMonth := 0, nextYear := 0, nextMonth := 0, isCurrentPeriod := false }

/-- Storage oracles the statistics engine reads through; each call either
returns rows or a storage error. -/
structure StatsDB where
  getCategoryTotalsByMonth : Int → Int → Except Unit (List CategoryTotal)
  getExpensesByMonth : Int → Int → Except Unit (List ExpenseRow)
  getDailyTotalsForMonth : Int → Int → Except Unit (List DailyTotal)
  getCategoryTotalsByYear : Int → Except Unit (List CategoryTotal)
  getExpensesByYear : Int → Except Unit (List ExpenseRow)
  getMonthlyTotalsForYear : Int → Except Unit (List MonthlyTotal)
  getTotalForPeriod : Int → Int → Except Unit Rat

/-- Value the handlers keep from total, _ := db.GetTotalForPeriod(...):
the error is discarded and the float64 zero value accompanies it. -/
def orElseZero (r : Except Unit Rat) : Rat :=
  match r with
  | Except.ok v => v
  | Except.error _ => 0

/-- Expense line built by both statistics views from a stored expense. -/
def mkExpenseItem (e : ExpenseRow) : ExpenseItem :=
  { id := e.id, amount := e.amount, description := e.description,
    category := e.category, time := formatShort e.date,
    dateTime := formatISO e.date, categoryStyle := getCategoryStyle e.category,
    isIncome := containsIncome e.description }

/-- Embeds Handlers.buildMonthView. The two leading reads abort to the
zero view model on error; the daily-totals read failure is only logged
(the series then reads all zeros) and the period-total read errors are
discarded with the zero value. -/
def buildMonthView (db : StatsDB) (year month : Int) (now : DateTime) : StatsViewModel :=
  match db.getCategoryTotalsByMonth year month with
  | Except.error _ => emptyStatsViewModel
  | Except.ok categoryTotals =>
  match db.getExpensesByMonth year month with
  | Except.error _ => emptyStatsViewModel
  | Except.ok expenses =>
  let dailyTotals := match db.getDailyTotalsForMonth year month with
    | Except.ok l => l
    | Except.error _ => []
  let total := orElseZero (db.getTotalForPeriod year month)
  let prevYM := normYM year (month - 1)
  let prevTotal := orElseZero (db.getTotalForPeriod prevYM.1 prevYM.2)
  let rawChange := ((total - prevTotal) / prevTotal) * 100
  let hasChange := decide (0 < prevTotal)
  let isIncrease := if 0 < prevTotal then decide (0 < rawChange) else false
  let percentageChange := if 0 < prevTotal then |rawChange| else 0
  let dim := daysInMonth year month
  let averageSpending := if 0 < dim then total / (dim : Rat) else 0
  let maxValue := dailyTotals.foldl (fun m dt => if dt.total > m then dt.total else m) 0
  let dailyLookup := fun (day : Int) =>
    match dailyTotals.reverse.find? (fun dt => dt.day == day) with
    | some dt => dt.total
    | none => 0
  let chartData := (List.range dim).map (fun i =>
    let day : Int := Int.ofNat (i + 1)
    ({ label := if day == 1 || day == 10 || day == 20 || day == Int.ofNat dim
          then toString day else "",
       value := dailyLookup day } : ChartPoint))
  let categoryItems := categoryTotals.map (fun ct =>
    ({ category := ct.category, total := ct.total, count := ct.count,
       percentage := if 0 < total then (ct.total / total) * 100 else 0,
       categoryStyle := getCategoryStyle ct.category } : StatsCategoryItem))
  let expenseItems := expenses.map mkExpenseItem
  let nextYM := normYM year (month + 1)
  { viewMode := "month", year := year, month := month,
    monthName := monthNameOf month, total := total,
    percentageChange := percentageChange, isIncrease := isIncrease,
    hasChange := hasChange, averageSpending := averageSpending,
    averageLabel := "SPENT/DAY", categories := categoryItems,
    expenses := expenseItems, chartData := chartData,
    maxChartValue := maxValue, prevYear := prevYM.1, prevMonth := prevYM.2,
    nextYear := nextYM.1, nextMonth := nextYM.2,
    isCurrentPeriod := decide (year = now.year) && decide (month = now.month) }

/-- Embeds Handlers.buildYearView, the twin of buildMonthView grouped by
month with a fixed 12-point series. -/
def buildYearView (db : StatsDB) (year : Int) (now : DateTime) : StatsViewModel :=
  match db.getCategoryTotalsByYear year with
  | Except.error _ => emptyStatsViewModel
  | Except.ok categoryTotals =>
  match db.getExpensesByYear year with
  | Except.error _ => emptyStatsViewModel
  | Except.ok expenses =>
  let monthlyTotals := match db.getMonthlyTotalsForYear year with
    | Except.ok l => l
    | Except.error _ => []
  let total := orElseZero (db.getTotalForPeriod year 0)
  let prevTotal := orElseZero (db.getTotalForPeriod (year - 1) 0)
  let rawChange := ((total - prevTotal) / prevTotal) * 100
  let hasChange := decide (0 < prevTotal)
  let isIncrease := if 0 < prevTotal then decide (0 < rawChange) else false
  let percentageChange := if 0 < prevTotal then |rawChange| else 0
  let averageSpending := total / 12
  let maxValue := monthlyTotals.foldl (fun m mt => if mt.total > m then mt.total else m) 0
  let monthlyLookup := fun (m : Int) =>
    match monthlyTotals.reverse.find? (fun mt => mt.month == m) with
    | some mt => mt.total
    | none => 0
  let chartData := (List.range 12).map (fun i =>
    ({ label := monthAbbrevs.getD i (""),
       value := monthlyLookup (Int.ofNat (i + 1)) } : ChartPoint))
  let categoryItems := categoryTotals.map (fun ct =>
    ({ category := ct.category, total := ct.total, count := ct.count,
       percentage := if 0 < total then (ct.total / total) * 100 else 0,
       categoryStyle := getCategoryStyle ct.category } : StatsCategoryItem))
  let expenseItems := expenses.map mkExpenseItem
  { viewMode := "year", year := year, month := 0,
    monthName := toString year, total := total,
    percentageChange := percentageChange, isIncrease := isIncrease,
    hasChange := hasChange, averageSpending := averageSpending,
    averageLabel := "SPENT/MTH", categories := categoryItems,
    expenses := expenseItems, chartData := chartData,
    maxChartValue := maxValue, prevYear := year - 1, prevMonth := 0,
    nextYear := year + 1, nextMonth := 0,
    isCurrentPeriod := decide (year = now.year) }

/-- Claim C6: whenever month aggregation proceeds (the two leading reads
succeed), the chart series has exactly daysInMonth(year, month) points, a
day with no daily-total row contributes the value 0, and the day count
follows the proleptic calendar: 29 for February 2024, 28 for February
2023. -/
theorem month_chart_spans_days (db : StatsDB) (year month : Int) (now : DateTime)
    (cts : List CategoryTotal) (es : List ExpenseRow)
    (h1 : db.getCategoryTotalsByMonth year month = Except.ok cts)
    (h2 : db.getExpensesByMonth year month = Except.ok es) :
    ((buildMonthView db year month now).chartData.length = daysInMonth year month)
    ∧ (∀ dts, db.getDailyTotalsForMonth year month = Except.ok dts →
        ∀ i, i < daysInMonth year month →
          (∀ dt ∈ dts, dt.day ≠ (i : Int) + 1) →
          ((buildMonthView db year month now).chartData[i]?).map ChartPoint.value = some 0)
    ∧ daysInMonth 2024 2 = 29 ∧ daysInMonth 2023 2 = 28 := by
  refine ⟨?_, ?_, by decide, by decide⟩
  · simp only [buildMonthView, h1, h2]
    rw [List.length_map, List.length_range]
  · intro dts hdts i hi hnone
    simp only [buildMonthView, h1, h2, hdts]
    have hrange : (List.range (daysInMonth year month))[i]? = some i :=
      List.getElem?_range hi
    rw [List.getElem?_map, hrange]
    have hfind : dts.reverse.find? (fun dt => dt.day == (i : Int) + 1) = none := by
      rw [List.find?_eq_none]
      intro dt hdt
      have hne := hnone dt (List.mem_reverse.mp hdt)
      simp [hne]
    simp [hfind]

/-- Oracle store for the statistics witnesses: February 2024 data with one
daily-total row on day 10 and consistent period totals. -/
def statsDbW : StatsDB :=
  { getCategoryTotalsByMonth := fun y m =>
      if y == 2024 && m == 2 then
        Except.ok [{ category := "food", total := 20, count := 2 },
                   { category := "transport", total := 20, count := 1 }]
      else Except.ok [],
    getExpensesByMonth := fun _ _ => Except.ok [],
    getDailyTotalsForMonth := fun y m =>
      if y == 2024 && m == 2 then Except.ok [{ day := 10, total := 40 }]
      else Except.ok [],
    getCategoryTotalsByYear := fun y =>
      if y == 2024 then
        Except.ok [{ category := "food", total := 20, count := 2 },
                   { category := "transport", total := 20, count := 1 }]
      else Except.ok [],
    getExpensesByYear := fun _ => Except.ok [],
    getMonthlyTotalsForYear := fun y =>
      if y == 2024 then Except.ok [{ month := 2, total := 40 }]
      else Except.ok [],
    getTotalForPeriod := fun y m =>
      if y == 2024 && m == 2 then Except.ok 40
      else if y == 2024 && m == 1 then Except.ok 16
      else if y == 2024 && m == 0 then Except.ok 40
      else if y == 2023 && m == 0 then Except.ok 25
      else Except.ok 0 }

/-- Clock used by the statistics witnesses. -/
def clockFeb2024 : DateTime :=
  { year := 2024, month := 2, day := 20, hour := 9, minute := 0, second := 0 }

/-- Witness for claim C6 at the concrete February 2024 store: the chart
has the 29 leap-year points and day 5 (no rows) carries value 0. -/
theorem month_chart_spans_days_witness :
    ((buildMonthView statsDbW 2024 2 clockFeb2024).chartData.length = daysInMonth 2024 2)
    ∧ (∀ dts, statsDbW.getDailyTotalsForMonth 2024 2 = Except.ok dts →
        ∀ i, i < daysInMonth 2024 2 →
          (∀ dt ∈ dts, dt.day ≠ (i : Int) + 1) →
          ((buildMonthView statsDbW 2024 2 clockFeb2024).chartData[i]?).map ChartPoint.value =
            some 0)
    ∧ daysInMonth 2024 2 = 29 ∧ daysInMonth 2023 2 = 28 :=
  month_chart_spans_days statsDbW 2024 2 clockFeb2024
    [{ category := "food", total := 20, count := 2 },
     { category := "transport", total := 20, count := 1 }]
    [] rfl rfl

theorem rawChange_pos_iff (total prevTotal : Rat) (hp : 0 < prevTotal) :
    (0 < ((total - prevTotal) / prevTotal) * 100) ↔ prevTotal < total := by
  rw [div_mul_eq_mul_div, lt_div_iff₀ hp]
  constructor
  · intro h; nlinarith
  · intro h; nlinarith

/-- Claim C7: in both statistics modes the period-over-prior-period change
is computed only when the prior total is strictly positive, as the
absolute value of ((total - prevTotal) / prevTotal) * 100, with the
direction flag equal to total > prevTotal (decided on the signed value
before the absolute value is taken); whenever the prior total is not
positive the change is reported absent through hasChange = false with a
zero value, so no division by zero is ever surfaced. -/
theorem percentage_change_guard (db : StatsDB) (year month : Int) (now : DateTime)
    (cts ctsY : List CategoryTotal) (es esY : List ExpenseRow)
    (h1 : db.getCategoryTotalsByMonth year month = Except.ok cts)
    (h2 : db.getExpensesByMonth year month = Except.ok es)
    (hy1 : db.getCategoryTotalsByYear year = Except.ok ctsY)
    (hy2 : db.getExpensesByYear year = Except.ok esY) :
    (let total := orElseZero (db.getTotalForPeriod year month)
     let prevTotal := orElseZero
       (db.getTotalForPeriod (normYM year (month - 1)).1 (normYM year (month - 1)).2)
     (0 < prevTotal →
       (buildMonthView db year month now).hasChange = true
       ∧ (buildMonthView db year month now).percentageChange =
           |((total - prevTotal) / prevTotal) * 100|
       ∧ (buildMonthView db year month now).isIncrease = decide (prevTotal < total))
     ∧ (prevTotal ≤ 0 →
       (buildMonthView db year month now).hasChange = false
       ∧ (buildMonthView db year month now).percentageChange = 0
       ∧ (buildMonthView db year month now).isIncrease = false))
    ∧ (let total := orElseZero (db.getTotalForPeriod year 0)
       let prevTotal := orElseZero (db.getTotalForPeriod (year - 1) 0)
       (0 < prevTotal →
         (buildYearView db year now).hasChange = true
         ∧ (buildYearView db year now).percentageChange =
             |((total - prevTotal) / prevTotal) * 100|
         ∧ (buildYearView db year now).isIncrease = decide (prevTotal < total))
       ∧ (prevTotal ≤ 0 →
         (buildYearView db year now).hasChange = false
         ∧ (buildYearView db year now).percentageChange = 0
         ∧ (buildYearView db year now).isIncrease = false)) := by
  constructor
  · intro total prevTotal
    constructor
    · intro hp
      simp only [buildMonthView, h1, h2]
      refine ⟨by simpa using hp, by rw [if_pos hp], ?_⟩
      rw [if_pos hp]
      exact decide_eq_decide.mpr (rawChange_pos_iff total prevTotal hp)
    · intro hp
      have hnp : ¬ (0 < prevTotal) := not_lt.mpr hp
      simp only [buildMonthView, h1, h2]
      exact ⟨by simpa using hnp, by rw [if_neg hnp], by rw [if_neg hnp]⟩
  · intro total prevTotal
    constructor
    · intro hp
      simp only [buildYearView, hy1, hy2]
      refine ⟨by simpa using hp, by rw [if_pos hp], ?_⟩
      rw [if_pos hp]
      exact decide_eq_decide.mpr (rawChange_pos_iff total prevTotal hp)
    · intro hp
      have hnp : ¬ (0 < prevTotal) := not_lt.mpr hp
      simp only [buildYearView, hy1, hy2]
      exact ⟨by simpa using hnp, by rw [if_neg hnp], by rw [if_neg hnp]⟩

/-- Witness for claim C7 at the concrete store: February 2024 against a
positive January total in month mode, and 2024 against a positive 2023
total in year mode. -/
theorem percentage_change_guard_witness :
    (let total := orElseZero (statsDbW.getTotalForPeriod 2024 2)
     let prevTotal := orElseZero
       (statsDbW.getTotalForPeriod (normYM 2024 (2 - 1)).1 (normYM 2024 (2 - 1)).2)
     (0 < prevTotal →
       (buildMonthView statsDbW 2024 2 clockFeb2024).hasChange = true
       ∧ (buildMonthView statsDbW 2024 2 clockFeb2024).percentageChange =
           |((total - prevTotal) / prevTotal) * 100|
       ∧ (buildMonthView statsDbW 2024 2 clockFeb2024).isIncrease = decide (prevTotal < total))
     ∧ (prevTotal ≤ 0 →
       (buildMonthView statsDbW 2024 2 clockFeb2024).hasChange = false
       ∧ (buildMonthView statsDbW 2024 2 clockFeb2024).percentageChange = 0
       ∧ (buildMonthView statsDbW 2024 2 clockFeb2024).isIncrease = false))
    ∧ (let total := orElseZero (statsDbW.getTotalForPeriod 2024 0)
       let prevTotal := orElseZero (statsDbW.getTotalForPeriod (2024 - 1) 0)
       (0 < prevTotal →
         (buildYearView statsDbW 2024 clockFeb2024).hasChange = true
         ∧ (buildYearView statsDbW 2024 clockFeb2024).percentageChange =
             |((total - prevTotal) / prevTotal) * 100|
         ∧ (buildYearView statsDbW 2024 clockFeb2024).isIncrease = decide (prevTotal < total))
       ∧ (prevTotal ≤ 0 →
         (buildYearView statsDbW 2024 clockFeb2024).hasChange = false
         ∧ (buildYearView statsDbW 2024 clockFeb2024).percentageChange = 0
         ∧ (buildYearView statsDbW 2024 clockFeb2024).isIncrease = false)) :=
  percentage_change_guard statsDbW 2024 2 clockFeb2024
    [{ category := "food", total := 20, count := 2 },
     { category := "transport", total := 20, count := 1 }]
    [{ category := "food", total := 20, count := 2 },
     { category := "transport", total := 20, count := 1 }]
    [] [] rfl rfl rfl rfl

theorem sum_map_mul_const (l : List Rat) (c : Rat) :
    (l.map (fun a => a * c)).sum = l.sum * c := by
  induction l with
  | nil => simp
  | cons x xs ih => simp [ih, add_mul]

theorem sum_map_percentage (T : Rat) (l : List Rat) (hT : 0 < T) (hsum : l.sum = T) :
    (l.map (fun a => (a / T) * 100)).sum = 100 := by
  have hfn : (fun a : Rat => (a / T) * 100) = fun a => a * (100 / T) := by
    funext a
    rw [div_mul_eq_mul_div, mul_div_assoc]
  rw [hfn, sum_map_mul_const, hsum, mul_comm, div_mul_cancel₀ _ (ne_of_gt hT)]

/-- Claim C8: in both statistics modes each reported category percentage
equals categoryTotal / periodTotal * 100 when the period total is
positive — so the percentages sum to 100 whenever the category totals sum
to the period total — and every percentage is 0 when the period total is
0, the guard making any division by zero unreachable. -/
theorem category_percentage_formula (db : StatsDB) (year month : Int) (now : DateTime)
    (cts ctsY : List CategoryTotal) (es esY : List ExpenseRow)
    (h1 : db.getCategoryTotalsByMonth year month = Except.ok cts)
    (h2 : db.getExpensesByMonth year month = Except.ok es)
    (hy1 : db.getCategoryTotalsByYear year = Except.ok ctsY)
    (hy2 : db.getExpensesByYear year = Except.ok esY) :
    (((buildMonthView db year month now).categories.length = cts.length)
     ∧ (∀ i : Nat,
         ((buildMonthView db year month now).categories[i]?).map StatsCategoryItem.percentage =
         (cts[i]?).map (fun ct =>
           if 0 < orElseZero (db.getTotalForPeriod year month)
           then (ct.total / orElseZero (db.getTotalForPeriod year month)) * 100 else 0))
     ∧ (orElseZero (db.getTotalForPeriod year month) = 0 →
         ∀ item ∈ (buildMonthView db year month now).categories, item.percentage = 0)
     ∧ (0 < orElseZero (db.getTotalForPeriod year month) →
         (cts.map CategoryTotal.total).sum = orElseZero (db.getTotalForPeriod year month) →
         ((buildMonthView db year month now).categories.map
           StatsCategoryItem.percentage).sum = 100))
    ∧ (((buildYearView db year now).categories.length = ctsY.length)
     ∧ (∀ i : Nat,
         ((buildYearView db year now).categories[i]?).map StatsCategoryItem.percentage =
         (ctsY[i]?).map (fun ct =>
           if 0 < orElseZero (db.getTotalForPeriod year 0)
           then (ct.total / orElseZero (db.getTotalForPeriod year 0)) * 100 else 0))
     ∧ (orElseZero (db.getTotalForPeriod year 0) = 0 →
         ∀ item ∈ (buildYearView db year now).categories, item.percentage = 0)
     ∧ (0 < orElseZero (db.getTotalForPeriod year 0) →
         (ctsY.map CategoryTotal.total).sum = orElseZero (db.getTotalForPeriod year 0) →
         ((buildYearView db year now).categories.map
           StatsCategoryItem.percentage).sum = 100)) := by
  have hcatM : (buildMonthView db year month now).categories =
      cts.map (fun ct =>
        ({ category := ct.category, total := ct.total, count := ct.count,
           percentage := if 0 < orElseZero (db.getTotalForPeriod year month)
             then (ct.total / orElseZero (db.getTotalForPeriod year month)) * 100 else 0,
           categoryStyle := getCategoryStyle ct.category } : StatsCategoryItem)) := by
    simp only [buildMonthView, h1, h2]
  have hcatY : (buildYearView db year now).categories =
      ctsY.map (fun ct =>
        ({ category := ct.category, total := ct.total, count := ct.count,
           percentage := if 0 < orElseZero (db.getTotalForPeriod year 0)
             then (ct.total / orElseZero (db.getTotalForPeriod year 0)) * 100 else 0,
           categoryStyle := getCategoryStyle ct.category } : StatsCategoryItem)) := by
    simp only [buildYearView, hy1, hy2]
  refine ⟨⟨?_, ?_, ?_, ?_⟩, ⟨?_, ?_, ?_, ?_⟩⟩
  · rw [hcatM, List.length_map]
  · intro i
    rw [hcatM, List.getElem?_map]
    cases hq : cts[i]? <;> simp
  · intro h0 item hitem
    rw [hcatM] at hitem
    obtain ⟨ct, _, rfl⟩ := List.mem_map.mp hitem
    simp [h0]
  · intro h0 hsum
    rw [hcatM, List.map_map]
    have hcomp : (StatsCategoryItem.percentage ∘ fun ct : CategoryTotal =>
        ({ category := ct.category, total := ct.total, count := ct.count,
           percentage := if 0 < orElseZero (db.getTotalForPeriod year month)
             then (ct.total / orElseZero (db.getTotalForPeriod year month)) * 100 else 0,
           categoryStyle := getCategoryStyle ct.category } : StatsCategoryItem)) =
        fun ct => (ct.total / orElseZero (db.getTotalForPeriod year month)) * 100 := by
      funext ct
      simp [if_pos h0]
    rw [hcomp]
    have hm : cts.map (fun ct =>
        (ct.total / orElseZero (db.getTotalForPeriod year month)) * 100) =
        (cts.map CategoryTotal.total).map
          (fun a => (a / orElseZero (db.getTotalForPeriod year month)) * 100) := by
      rw [List.map_map]
      rfl
    rw [hm]
    exact sum_map_percentage _ _ h0 hsum
  · rw [hcatY, List.length_map]
  · intro i
    rw [hcatY, List.getElem?_map]
    cases hq : ctsY[i]? <;> simp
  · intro h0 item hitem
    rw [hcatY] at hitem
    obtain ⟨ct, _, rfl⟩ := List.mem_map.mp hitem
    simp [h0]
  · intro h0 hsum
    rw [hcatY, List.map_map]
    have hcomp : (StatsCategoryItem.percentage ∘ fun ct : CategoryTotal =>
        ({ category := ct.category, total := ct.total, count := ct.count,
           percentage := if 0 < orElseZero (db.getTotalForPeriod year 0)
             then (ct.total / orElseZero (db.getTotalForPeriod year 0)) * 100 else 0,
           categoryStyle := getCategoryStyle ct.category } : StatsCategoryItem)) =
        fun ct => (ct.total / orElseZero (db.getTotalForPeriod year 0)) * 100 := by
      funext ct
      simp [if_pos h0]
    rw [hcomp]
    have hy : ctsY.map (fun ct =>
        (ct.total / orElseZero (db.getTotalForPeriod year 0)) * 100) =
        (ctsY.map CategoryTotal.total).map
          (fun a => (a / orElseZero (db.getTotalForPeriod year 0)) * 100) := by
      rw [List.map_map]
      rfl
    rw [hy]
    exact sum_map_percentage _ _ h0 hsum

/-- Witness for claim C8 at the concrete store: February 2024 category
totals 20 + 20 against a period total of 40, in both modes. -/
theorem category_percentage_formula_witness :
    (((buildMonthView statsDbW 2024 2 clockFeb2024).categories.length =
        ([{ category := "food", total := 20, count := 2 },
          { category := "transport", total := 20, count := 1 }] : List CategoryTotal).length)
     ∧ (∀ i : Nat,
         ((buildMonthView statsDbW 2024 2 clockFeb2024).categories[i]?).map
           StatsCategoryItem.percentage =
         (([{ category := "food", total := 20, count := 2 },
            { category := "transport", total := 20, count := 1 }] : List CategoryTotal)[i]?).map
           (fun ct =>
             if 0 < orElseZero (statsDbW.getTotalForPeriod 2024 2)
             then (ct.total / orElseZero (statsDbW.getTotalForPeriod 2024 2)) * 100 else 0))
     ∧ (orElseZero (statsDbW.getTotalForPeriod 2024 2) = 0 →
         ∀ item ∈ (buildMonthView statsDbW 2024 2 clockFeb2024).categories,
           item.percentage = 0)
     ∧ (0 < orElseZero (statsDbW.getTotalForPeriod 2024 2) →
         (([{ category := "food", total := 20, count := 2 },
            { category := "transport", total := 20, count := 1 }] : List CategoryTotal).map
           CategoryTotal.total).sum = orElseZero (statsDbW.getTotalForPeriod 2024 2) →
         ((buildMonthView statsDbW 2024 2 clockFeb2024).categories.map
           StatsCategoryItem.percentage).sum = 100))
    ∧ (((buildYearView statsDbW 2024 clockFeb2024).categories.length =
        ([{ category := "food", total := 20, count := 2 },
          { category := "transport", total := 20, count := 1 }] : List CategoryTotal).length)
     ∧ (∀ i : Nat,
         ((buildYearView statsDbW 2024 clockFeb2024).categories[i]?).map
           StatsCategoryItem.percentage =
         (([{ category := "food", total := 20, count := 2 },
            { category := "transport", total := 20, count := 1 }] : List CategoryTotal)[i]?).map
           (fun ct =>
             if 0 < orElseZero (statsDbW.getTotalForPeriod 2024 0)
             then (ct.total / orElseZero (statsDbW.getTotalForPeriod 2024 0)) * 100 else 0))
     ∧ (orElseZero (statsDbW.getTotalForPeriod 2024 0) = 0 →
         ∀ item ∈ (buildYearView statsDbW 2024 clockFeb2024).categories,
           item.percentage = 0)
     ∧ (0 < orElseZero (statsDbW.getTotalForPeriod 2024 0) →
         (([{ category := "food", total := 20, count := 2 },
            { category := "transport", total := 20, count := 1 }] : List CategoryTotal).map
           CategoryTotal.total).sum = orElseZero (statsDbW.getTotalForPeriod 2024 0) →
         ((buildYearView statsDbW 2024 clockFeb2024).categories.map
           StatsCategoryItem.percentage).sum = 100)) :=
  category_percentage_formula statsDbW 2024 2 clockFeb2024
    [{ category := "food", total := 20, count := 2 },
     { category := "transport", total := 20, count := 1 }]
    [{ category := "food", total := 20, count := 2 },
     { category := "transport", total := 20, count := 1 }]
    [] [] rfl rfl rfl rfl

/-- Whether a storage read failed. -/
def isError {α : Type} (r : Except Unit α) : Bool :=
  match r with
  | Except.error _ => true
  | Except.ok _ => false

/-- Prop transcribing claim C4 on month mode: any storage read failure
during aggregation aborts it, so only the zero view model (the abort
result the handler produces in place of an internal error) can come back —
in particular a partially populated aggregate is never returned. -/
def monthAggregationAbortsOnFailure : Prop :=
  ∀ db year month now,
    (isError (db.getCategoryTotalsByMonth year month)
      || isError (db.getExpensesByMonth year month)
      || isError (db.getDailyTotalsForMonth year month)
      || isError (db.getTotalForPeriod year month)) = true →
    buildMonthView db year month now = emptyStatsViewModel

/-- Store whose daily-totals read fails while every other read succeeds
with populated February 2024 data. -/
def statsDbFail : StatsDB :=
  { getCategoryTotalsByMonth := fun _ _ =>
      Except.ok [{ category := "food", total := 40, count := 3 }],
    getExpensesByMonth := fun _ _ => Except.ok [],
    getDailyTotalsForMonth := fun _ _ => Except.error (),
    getCategoryTotalsByYear := fun _ => Except.ok [],
    getExpensesByYear := fun _ => Except.ok [],
    getMonthlyTotalsForYear := fun _ => Except.ok [],
    getTotalForPeriod := fun _ _ => Except.ok 40 }

/-- Counterexample to claim C4: when only the daily-totals read fails, the
month aggregation does not abort and no internal error surfaces — the
handler logs the failure, keeps the nil rows, and hands the caller a
populated view model whose chart series silently reads all zeros next to
real category data: a partially populated aggregate. -/
theorem statistics_partial_aggregate_counterexample :
    ¬ monthAggregationAbortsOnFailure := by
  intro h
  have h2 := h statsDbFail 2024 2 clockFeb2024 (by decide)
  exact absurd (congrArg StatsViewModel.viewMode h2) (by decide)

/-- Claim C4 amended: only a category-totals or expense-list read failure
aborts aggregation, and the abort hands the caller the zero view model
rendered as an ordinary page rather than an internal error; a failing
chart-series read or period-total read is logged or discarded and
aggregation continues, returning a partially populated aggregate. -/
theorem statistics_abort_policy (db : StatsDB) (year month : Int) (now : DateTime) :
    (isError (db.getCategoryTotalsByMonth year month) = true →
      buildMonthView db year month now = emptyStatsViewModel)
    ∧ (isError (db.getExpensesByMonth year month) = true →
      buildMonthView db year month now = emptyStatsViewModel)
    ∧ (∀ cts es, db.getCategoryTotalsByMonth year month = Except.ok cts →
        db.getExpensesByMonth year month = Except.ok es →
        (buildMonthView db year month now).viewMode = "month")
    ∧ (isError (db.getCategoryTotalsByYear year) = true →
      buildYearView db year now = emptyStatsViewModel)
    ∧ (isError (db.getExpensesByYear year) = true →
      buildYearView db year now = emptyStatsViewModel)
    ∧ (∀ cts es, db.getCategoryTotalsByYear year = Except.ok cts →
        db.getExpensesByYear year = Except.ok es →
        (buildYearView db year now).viewMode = "year") := by
  refine ⟨?_, ?_, ?_, ?_, ?_, ?_⟩
  · intro h
    unfold buildMonthView
    cases hx : db.getCategoryTotalsByMonth year month with
    | error e => rfl
    | ok l => rw [hx] at h; simp [isError] at h
  · intro h
    unfold buildMonthView
    cases hx : db.getCategoryTotalsByMonth year month with
    | error e => rfl
    | ok l =>
      cases hx2 : db.getExpensesByMonth year month with
      | error e => rfl
      | ok l2 => rw [hx2] at h; simp [isError] at h
  · intro cts es hc he
    simp only [buildMonthView, hc, he]
  · intro h
    unfold buildYearView
    cases hx : db.getCategoryTotalsByYear year with
    | error e => rfl
    | ok l => rw [hx] at h; simp [isError] at h
  · intro h
    unfold buildYearView
    cases hx : db.getCategoryTotalsByYear year with
    | error e => rfl
    | ok l =>
      cases hx2 : db.getExpensesByYear year with
      | error e => rfl
      | ok l2 => rw [hx2] at h; simp [isError] at h
  · intro cts es hc he
    simp only [buildYearView, hc, he]

/-- Store all of whose reads fail. -/
def statsDbAllErr : StatsDB :=
  { getCategoryTotalsByMonth := fun _ _ => Except.error (),
    getExpensesByMonth := fun _ _ => Except.error (),
    getDailyTotalsForMonth := fun _ _ => Except.error (),
    getCategoryTotalsByYear := fun _ => Except.error (),
    getExpensesByYear := fun _ => Except.error (),
    getMonthlyTotalsForYear := fun _ => Except.error (),
    getTotalForPeriod := fun _ _ => Except.error () }

/-- Witness for the amended claim C4: a failing category-totals read
aborts to the zero view model in both modes, while with the two leading
reads succeeding the aggregation proceeds. -/
theorem statistics_abort_policy_witness :
    buildMonthView statsDbAllErr 2024 2 clockFeb2024 = emptyStatsViewModel
    ∧ buildYearView statsDbAllErr 2024 clockFeb2024 = emptyStatsViewModel
    ∧ (buildMonthView statsDbW 2024 2 clockFeb2024).viewMode = "month"
    ∧ (buildYearView statsDbW 2024 clockFeb2024).viewMode = "year" :=
  ⟨(statistics_abort_policy statsDbAllErr 2024 2 clockFeb2024).1 (by decide),
   (statistics_abort_policy statsDbAllErr 2024 2 clockFeb2024).2.2.2.1 (by decide),
   (statistics_abort_policy statsDbW 2024 2 clockFeb2024).2.2.1
     [{ category := "food", total := 20, count := 2 },
      { category := "transport", total := 20, count := 1 }] [] rfl rfl,
   (statistics_abort_policy statsDbW 2024 2 clockFeb2024).2.2.2.2.2
     [{ category := "food", total := 20, count := 2 },
      { category := "transport", total := 20, count := 1 }] [] rfl rfl⟩

end ExpenseTracker
